import Mathlib

/-!
Shallow embedding of the USB write-speed test harness: the test-ordering
and fail-fast hooks of conftest.py and the speed measurement routine of
test_usb_improved.py. Machine effects (filesystem, clock, environment
variables) are passed explicitly as oracle values.
-/

namespace UsbSpeedTest

/-- Phase of one test execution, the value of pytest `call.when`. -/
inductive Phase
  | setup
  | call
  | teardown
  deriving DecidableEq

/-- Kind of exception recorded in `call.excinfo`: a genuine failure
(assertion error or other error) or a skip raised inside the test body. -/
inductive ExcKind
  | failure
  | skipped
  deriving DecidableEq

/-- A collected test item: its name and whether its keywords contain the
`precondition` and `performance` marks. -/
structure Item where
  name : String
  precondition : Bool
  performance : Bool
  deriving DecidableEq

/-- Result of one test phase as seen by `pytest_runtest_makereport`:
the phase (`call.when`) and the recorded exception, if any (`call.excinfo`). -/
structure CallInfo where
  when : Phase
  excinfo : Option ExcKind
  deriving DecidableEq

/-- The module-level session state of conftest.py:
`_precondition_failed` and `_failed_precondition_name`. -/
structure SessionState where
  precondition_failed : Bool
  failed_precondition_name : Option String
  deriving DecidableEq

/-- Hook `pytest_sessionstart` (conftest.py lines 119-130): resets the
session state to a clean value. -/
def pytest_sessionstart : SessionState :=
  ⟨false, none⟩

/-- Hook `pytest_runtest_makereport` (conftest.py lines 28-50): during the
`call` phase, if the item carries the `precondition` mark and an exception
was recorded, set the failure flag and record this item name. -/
def pytest_runtest_makereport (st : SessionState) (item : Item) (call : CallInfo) : SessionState :=
  if call.when == Phase.call && item.precondition && call.excinfo.isSome then
    ⟨true, some item.name⟩
  else
    st

/-- Hook `pytest_runtest_setup` (conftest.py lines 53-70): skip the item
(returning `some n` where `n` is the recorded failed-precondition name cited
in the skip message) exactly when the failure flag is set and the item
carries the `performance` mark; otherwise run it (`none`). -/
def pytest_runtest_setup (st : SessionState) (item : Item) : Option (Option String) :=
  if st.precondition_failed && item.performance then
    some st.failed_precondition_name
  else
    none

/-- One `makereport` event of a session: the executed item and the phase
result reported for it. -/
structure ExecEvent where
  item : Item
  call : CallInfo
  deriving DecidableEq

/-- A whole session: starting from the state set by `pytest_sessionstart`,
feed every report event through `pytest_runtest_makereport`. -/
def runSession (evs : List ExecEvent) : SessionState :=
  evs.foldl (fun st e => pytest_runtest_makereport st e.item e.call) pytest_sessionstart

/-- The condition under which `pytest_runtest_makereport` records an event:
call phase, precondition mark, and a recorded exception. -/
def precond_call_failure (e : ExecEvent) : Bool :=
  e.call.when == Phase.call && e.item.precondition && e.call.excinfo.isSome

/-- Loop body of `pytest_collection_modifyitems` (conftest.py lines 94-100):
append the item to `precondition_tests`, `performance_tests` or
`other_tests` according to its keywords, first matching branch wins. -/
def categorize_step (acc : List Item × List Item × List Item) (item : Item) :
    List Item × List Item × List Item :=
  if item.precondition then (acc.1 ++ [item], acc.2.1, acc.2.2)
  else if item.performance then (acc.1, acc.2.1 ++ [item], acc.2.2)
  else (acc.1, acc.2.1, acc.2.2 ++ [item])

/-- The loop of `pytest_collection_modifyitems` (conftest.py lines 90-100):
partition the collected items into the lists `precondition_tests`,
`performance_tests` and `other_tests`, in collection order. -/
def categorize (items : List Item) : List Item × List Item × List Item :=
  items.foldl categorize_step ([], [], [])

/-- Hook `pytest_collection_modifyitems` (conftest.py line 103): reorder as
`precondition_tests + other_tests + performance_tests`. -/
def pytest_collection_modifyitems (items : List Item) : List Item :=
  (categorize items).1 ++ (categorize items).2.2 ++ (categorize items).2.1

/-- Classification used by the `categorize` loop: the first matching branch. -/
def isPre (i : Item) : Bool := i.precondition

/-- Second branch of the `categorize` loop: performance and not precondition. -/
def isPerf (i : Item) : Bool := !i.precondition && i.performance

/-- Third branch of the `categorize` loop: neither mark applies. -/
def isOther (i : Item) : Bool := !i.precondition && !i.performance

/-- Rank of the group an item is placed into by the reordering:
precondition group first, untagged group second, performance group last. -/
def tag_rank (i : Item) : Nat :=
  if i.precondition then 0 else if i.performance then 2 else 1

/-- Python `min` over a list (used on the nonempty `USB_SPEEDS`). -/
def pyMin : List Rat → Rat
  | [] => 0
  | x :: xs => xs.foldl min x

/-- Python `max` over a list (used on the nonempty `USB_SPEEDS`). -/
def pyMax : List Rat → Rat
  | [] => 0
  | x :: xs => xs.foldl max x

/-- Python `sum` over a list of speeds. -/
def pySum (l : List Rat) : Rat :=
  l.foldl (fun a b => a + b) 0

/-- Which of the summary sections `pytest_terminal_summary` emits. -/
inductive SummaryKind
  | precondFailure
  | allPassed
  | allSkipped
  | quiet
  deriving DecidableEq

/-- The speed statistics block of the success summary: average, minimum,
maximum and number of collected speed samples. -/
structure SpeedStats where
  avg : Rat
  minSpeed : Rat
  maxSpeed : Rat
  count : Nat
  deriving DecidableEq

/-- Hook `pytest_terminal_summary` (conftest.py lines 133-190): choose the
summary section from the failure flag and the passed/failed/skipped counts,
and in the all-passed case with collected speed samples also report
average, min, max and count of `USB_SPEEDS`. -/
def pytest_terminal_summary (st : SessionState) (passed failed skipped : Nat)
    (usb_speeds : List Rat) : SummaryKind × Option SpeedStats :=
  if st.precondition_failed then
    (SummaryKind.precondFailure, none)
  else if 0 < passed ∧ failed = 0 ∧ skipped = 0 then
    if usb_speeds.isEmpty then
      (SummaryKind.allPassed, none)
    else
      (SummaryKind.allPassed,
        some ⟨pySum usb_speeds / (usb_speeds.length : Rat),
              pyMin usb_speeds, pyMax usb_speeds, usb_speeds.length⟩)
  else if 0 < skipped ∧ passed = 0 ∧ failed = 0 then
    (SummaryKind.allSkipped, none)
  else
    (SummaryKind.quiet, none)

/-- Constant `BYTES_PER_KB` (test_usb_improved.py line 30). -/
def BYTES_PER_KB : Nat := 1024

/-- Constant `BYTES_PER_MB` (test_usb_improved.py line 31). -/
def BYTES_PER_MB : Nat := BYTES_PER_KB * 1024

/-- Constant `TEST_SIZE_MB`, the default test file size (line 34). -/
def TEST_SIZE_MB : Int := 100

/-- Constant `CHUNK_SIZE_BYTES`, the 1 MiB chunk (line 35). -/
def CHUNK_SIZE_BYTES : Nat := 1 * BYTES_PER_MB

/-- Constant `MIN_SPEED_MBPS`, the throughput floor (line 36). -/
def MIN_SPEED_MBPS : Rat := 50

/-- Constant `SPACE_BUFFER_MULTIPLIER` (line 37), the value 1.5. -/
def SPACE_BUFFER_MULTIPLIER : Rat := 3 / 2

/-- Constant `PROGRESS_LOG_INTERVAL` (line 38). -/
def PROGRESS_LOG_INTERVAL : Nat := 10

/-- Constant `DEFAULT_USB_PATH` (line 41). -/
def DEFAULT_USB_PATH : String := "/media/tx/USB_DRIVE"

/-- Constant `TEST_FILE_NAME` (line 42). -/
def TEST_FILE_NAME : String := "speedtest.dat"

/-- Constant `TEST_SIZES_MB`, the parametrized test sizes (line 45). -/
def TEST_SIZES_MB : List Int := [50, 100, 200]

/-- Python `max` over a list of integers, for `MAX_TEST_SIZE_MB`. -/
def pyMaxInt : List Int → Int
  | [] => 0
  | x :: xs => xs.foldl max x

/-- Constant `MAX_TEST_SIZE_MB = max(TEST_SIZES_MB)` (line 46). -/
def MAX_TEST_SIZE_MB : Int := pyMaxInt TEST_SIZES_MB

/-- Constant `MIN_FILE_SIZE_MB` (line 49). -/
def MIN_FILE_SIZE_MB : Int := 1

/-- Function `get_usb_path` (test_usb_improved.py lines 59-69):
`os.getenv` returns the value of `USB_TEST_PATH` when the variable is set
and `DEFAULT_USB_PATH` otherwise. -/
def get_usb_path (usb_test_path : Option String) : String :=
  match usb_test_path with
  | some v => v
  | none => DEFAULT_USB_PATH

/-- Fixture `usb_path` (test_usb_improved.py line 262): the path every test
receives is the one computed by `get_usb_path`. -/
def usb_path_fixture (usb_test_path : Option String) : String :=
  get_usb_path usb_test_path

/-- Fixture `writable_usb_path` (line 298): passes the `usb_path` value on. -/
def writable_usb_path_fixture (usb_test_path : Option String) : String :=
  usb_path_fixture usb_test_path

/-- Directory `test_usb_speed_parametrized` hands to `write_test_file`
(line 441): the value of the `writable_usb_path` fixture. -/
def measurement_target (usb_test_path : Option String) : String :=
  writable_usb_path_fixture usb_test_path

/-- The facts about the target path string that `validate_path` tests:
truthiness, `os.path.exists` and `os.path.isdir`. -/
structure PathInfo where
  nonempty : Bool
  pathExists : Bool
  isDir : Bool
  deriving DecidableEq

/-- The three distinct `ValueError` cases of `validate_path`. -/
inductive PathErr
  | emptyPath
  | notExists
  | notDir
  deriving DecidableEq

/-- Function `validate_path` (test_usb_improved.py lines 72-89): check
emptiness, existence and directoriness in that order, raising a distinct
error for the first condition that fails. -/
def validate_path (p : PathInfo) : Option PathErr :=
  if !p.nonempty then some PathErr.emptyPath
  else if !p.pathExists then some PathErr.notExists
  else if !p.isDir then some PathErr.notDir
  else none

/-- Outcome of one `write_test_file` invocation: either the returned speed
or the distinct Python exception that propagated. -/
inductive WResult
  | ok (speed : Rat)
  | invalidSize
  | invalidPath (e : PathErr)
  | shortWrite
  | notCreated
  | openError
  | fsyncError
  | timingError
  deriving DecidableEq

/-- Whether an outcome is one of the routine's IOError/OSError family
(Python exception class), as opposed to a ValueError. -/
def isIOFamily : WResult → Bool
  | WResult.shortWrite => true
  | WResult.notCreated => true
  | WResult.openError => true
  | WResult.fsyncError => true
  | _ => false

/-- Oracle for the machine effects one `write_test_file` call performs:
whether the test file pre-exists in the directory, whether `open` succeeds,
what byte count each successive `f.write` call reports (missing entries
mean a full write), whether flush and fsync succeed, whether the file
vanished before the existence re-check, the size `os.stat` reports, the
elapsed wall-clock seconds, and whether `os.remove` succeeds. -/
structure FsEnv where
  preExisting : Bool
  openOk : Bool
  writeReturns : List Nat
  fsyncOk : Bool
  vanished : Bool
  statSize : Nat
  elapsed : Rat
  removeOk : Bool
  deriving DecidableEq

/-- Line 124 of test_usb_improved.py: `num_chunks = total_bytes // CHUNK_SIZE_BYTES`. -/
def num_chunks_init (size_mb : Int) : Int :=
  (size_mb * (BYTES_PER_MB : Int)) / (CHUNK_SIZE_BYTES : Int)

/-- Lines 126-134: the chunk plan as (chunk length in bytes, chunk count).
When the integer-division chunk count is 0, fall back to one chunk of
exactly `total_bytes`; otherwise use full `CHUNK_SIZE_BYTES` chunks. -/
def chunk_plan (size_mb : Int) : Nat × Nat :=
  if num_chunks_init size_mb == 0 then
    ((size_mb * (BYTES_PER_MB : Int)).toNat, 1)
  else
    (CHUNK_SIZE_BYTES, (num_chunks_init size_mb).toNat)

/-- The write loop (lines 141-149): every `f.write` must report exactly the
chunk length, or the loop aborts with a short-write IOError. -/
def writes_ok (writeReturns : List Nat) (chunk_len num_chunks : Nat) : Bool :=
  (List.range num_chunks).all fun i => writeReturns.getD i chunk_len == chunk_len

/-- The try-block of `write_test_file` (lines 136-190): returns the file
existence at entry to the finally-block together with the primary outcome. -/
def try_body (env : FsEnv) (size_mb : Int) : Bool × WResult :=
  let plan := chunk_plan size_mb
  if !env.openOk then
    (env.preExisting, WResult.openError)
  else if !(writes_ok env.writeReturns plan.1 plan.2) then
    (true, WResult.shortWrite)
  else if !env.fsyncOk then
    (true, WResult.fsyncError)
  else if env.vanished then
    (false, WResult.notCreated)
  else if env.elapsed ≤ 0 then
    (true, WResult.timingError)
  else
    (true, WResult.ok (((env.statSize : Rat) / (BYTES_PER_MB : Rat)) / env.elapsed))

/-- Aggregate outcome of a call: the primary result, whether the test file
exists afterwards, whether `os.remove` was attempted, and whether any
filesystem I/O was attempted at all. -/
structure WOutcome where
  result : WResult
  fileStillThere : Bool
  removeAttempted : Bool
  ioAttempted : Bool
  deriving DecidableEq

/-- The finally-block (lines 198-206): if the file exists, attempt to
remove it; a removal failure is only logged and the primary result is
passed through unchanged. -/
def finallyCleanup (env : FsEnv) (fileThere : Bool) (r : WResult) : WOutcome :=
  if fileThere then
    if env.removeOk then ⟨r, false, true, true⟩
    else ⟨r, true, true, true⟩
  else ⟨r, false, false, true⟩

/-- Function `write_test_file` (test_usb_improved.py lines 92-206): size
validation, path validation, then the try/finally measurement. The two
validation errors are raised before the try-block, so no I/O happens and
the finally-block does not run on those paths. -/
def write_test_file (env : FsEnv) (p : PathInfo) (size_mb : Int) : WOutcome :=
  if size_mb < MIN_FILE_SIZE_MB then
    ⟨WResult.invalidSize, env.preExisting, false, false⟩
  else
    match validate_path p with
    | some e => ⟨WResult.invalidPath e, env.preExisting, false, false⟩
    | none => finallyCleanup env (try_body env size_mb).1 (try_body env size_mb).2

/-- Replace only the `removeOk` oracle field, to state that the primary
result never depends on whether the cleanup deletion succeeds. -/
def setRemoveOk (env : FsEnv) (b : Bool) : FsEnv :=
  ⟨env.preExisting, env.openOk, env.writeReturns, env.fsyncOk,
   env.vanished, env.statSize, env.elapsed, b⟩

/-- Function `get_free_space_mb` (test_usb_improved.py lines 209-241):
`None` when the path does not exist or `shutil.disk_usage` fails, otherwise
the free space in MB reported by the filesystem. -/
def get_free_space_mb (pathExists : Bool) (disk_free : Option Rat) : Option Rat :=
  if !pathExists then none else disk_free

/-- Test body `test_usb_sufficient_space` (test_usb_improved.py lines
336-368): skip from inside the body when the space check is unsupported,
fail the assert when free space is below `MAX_TEST_SIZE_MB` times the
buffer multiplier, and pass otherwise. The returned value is the exception
recorded in `call.excinfo` for this body. -/
def test_usb_sufficient_space (pathExists : Bool) (disk_free : Option Rat) : Option ExcKind :=
  match get_free_space_mb pathExists disk_free with
  | none => some ExcKind.skipped
  | some free_mb =>
      if (MAX_TEST_SIZE_MB : Rat) * SPACE_BUFFER_MULTIPLIER ≤ free_mb then none
      else some ExcKind.failure

/-- A valid target path: non-empty, existing, a directory. -/
def pGood : PathInfo := ⟨true, true, true⟩

/-- A well-behaved filesystem run: open succeeds, all writes complete,
fsync succeeds, the file persists, 50 MiB land on disk in 1 second,
removal succeeds. -/
def envGood : FsEnv := ⟨false, true, [], true, false, 52428800, 1, true⟩

/-- A run identical to `envGood` except the measured elapsed time is 0. -/
def envTiming : FsEnv := ⟨false, true, [], true, false, 52428800, 0, true⟩

/-- A run whose first write reports only 5 bytes: a short write. -/
def envShort : FsEnv := ⟨false, true, [5], true, false, 0, 1, true⟩

/-- A well-behaved run for a 1 MB request: 1 MiB lands on disk in 1 second. -/
def env1MB : FsEnv := ⟨false, true, [], true, false, 1048576, 1, true⟩

/-- Two precondition-tagged cases, B then D, both failing their call phase. -/
def evsBD : List ExecEvent :=
  [⟨⟨"B", true, false⟩, ⟨Phase.call, some ExcKind.failure⟩⟩,
   ⟨⟨"D", true, false⟩, ⟨Phase.call, some ExcKind.failure⟩⟩]

/-- The collection order of the worked spec example:
[perf A, precond B, other C, precond D, perf E]. -/
def itemsEx : List Item :=
  [⟨"A", false, true⟩, ⟨"B", true, false⟩, ⟨"C", false, false⟩,
   ⟨"D", true, false⟩, ⟨"E", false, true⟩]

/-!
Helper lemmas.
-/

theorem categorize_go (items : List Item) (a b c : List Item) :
    items.foldl categorize_step (a, b, c) =
      (a ++ items.filter isPre, b ++ items.filter isPerf, c ++ items.filter isOther) := by
  induction items generalizing a b c with
  | nil => simp
  | cons x xs ih =>
    by_cases hp : x.precondition
    · simp [List.foldl_cons, categorize_step, hp, ih, isPre, isPerf, isOther,
        List.filter_cons, List.append_assoc]
    · by_cases hq : x.performance
      · simp [List.foldl_cons, categorize_step, hp, hq, ih, isPre, isPerf, isOther,
          List.filter_cons, List.append_assoc]
      · simp [List.foldl_cons, categorize_step, hp, hq, ih, isPre, isPerf, isOther,
          List.filter_cons, List.append_assoc]

theorem categorize_eq (items : List Item) :
    categorize items =
      (items.filter isPre, items.filter isPerf, items.filter isOther) := by
  simpa using categorize_go items [] [] []

theorem modifyitems_filters (items : List Item) :
    pytest_collection_modifyitems items =
      items.filter isPre ++ items.filter isOther ++ items.filter isPerf := by
  simp [pytest_collection_modifyitems, categorize_eq]

theorem perm_filters (items : List Item) :
    (items.filter isPre ++ items.filter isOther ++ items.filter isPerf).Perm items := by
  induction items with
  | nil => simp
  | cons x xs ih =>
    by_cases hp : isPre x
    · have hperf : isPerf x = false := by simp [isPerf, isPre] at hp ⊢; simp [hp]
      have hoth : isOther x = false := by simp [isOther, isPre] at hp ⊢; simp [hp]
      rw [List.filter_cons_of_pos hp, List.filter_cons_of_neg (by simp [hoth]),
        List.filter_cons_of_neg (by simp [hperf])]
      exact ih.cons x
    · by_cases hq : x.performance
      · have hperf : isPerf x = true := by
          simp [isPre] at hp
          simp [isPerf, hp, hq]
        have hoth : isOther x = false := by
          simp [isOther, hq]
        rw [List.filter_cons_of_neg (by simp [hp]), List.filter_cons_of_neg (by simp [hoth]),
          List.filter_cons_of_pos hperf]
        exact List.perm_middle.trans (ih.cons x)
      · have hoth : isOther x = true := by
          simp [isPre] at hp
          simp [isOther, hp, hq]
        rw [List.filter_cons_of_neg (by simp [hp]), List.filter_cons_of_pos hoth,
          List.filter_cons_of_neg (by simp [isPerf, hq])]
        exact (List.perm_middle.append_right (xs.filter isPerf)).trans (ih.cons x)

theorem rank_of_mem_pre {a : Item} {l : List Item} (h : a ∈ l.filter isPre) :
    tag_rank a = 0 := by
  have := (List.mem_filter.mp h).2
  simp [isPre] at this
  simp [tag_rank, this]

theorem rank_of_mem_other {a : Item} {l : List Item} (h : a ∈ l.filter isOther) :
    tag_rank a = 1 := by
  have := (List.mem_filter.mp h).2
  simp [isOther] at this
  simp [tag_rank, this.1, this.2]

theorem rank_of_mem_perf {a : Item} {l : List Item} (h : a ∈ l.filter isPerf) :
    tag_rank a = 2 := by
  have := (List.mem_filter.mp h).2
  simp [isPerf] at this
  simp [tag_rank, this.1, this.2]

theorem rank_sorted_filters (items : List Item) :
    (items.filter isPre ++ items.filter isOther ++ items.filter isPerf).Pairwise
      (fun a b => tag_rank a ≤ tag_rank b) := by
  rw [List.pairwise_append]
  refine ⟨?_, List.pairwise_of_forall_mem_list fun a ha b hb => ?_, ?_⟩
  · rw [List.pairwise_append]
    refine ⟨List.pairwise_of_forall_mem_list fun a ha b hb => ?_,
      List.pairwise_of_forall_mem_list fun a ha b hb => ?_, fun a ha b hb => ?_⟩
    · rw [rank_of_mem_pre ha, rank_of_mem_pre hb]
    · rw [rank_of_mem_other ha, rank_of_mem_other hb]
    · rw [rank_of_mem_pre ha, rank_of_mem_other hb]
      omega
  · rw [rank_of_mem_perf ha, rank_of_mem_perf hb]
  · intro a ha b hb
    rcases List.mem_append.mp ha with ha | ha
    · rw [rank_of_mem_pre ha, rank_of_mem_perf hb]
      omega
    · rw [rank_of_mem_other ha, rank_of_mem_perf hb]
      omega

theorem makereport_as_ite (st : SessionState) (e : ExecEvent) :
    pytest_runtest_makereport st e.item e.call =
      if precond_call_failure e then ⟨true, some e.item.name⟩ else st := rfl

theorem runSession_go (evs : List ExecEvent) (st : SessionState) :
    evs.foldl (fun s e => pytest_runtest_makereport s e.item e.call) st =
      match (evs.filter precond_call_failure).getLast? with
      | some e => ⟨true, some e.item.name⟩
      | none => st := by
  induction evs generalizing st with
  | nil => rfl
  | cons e evs ih =>
    rw [List.foldl_cons, ih]
    by_cases hp : precond_call_failure e
    · rw [makereport_as_ite, if_pos hp, List.filter_cons_of_pos hp]
      cases hfl : evs.filter precond_call_failure with
      | nil => simp
      | cons y ys =>
        obtain ⟨z, hz⟩ := Option.isSome_iff_exists.mp
          (List.getLast?_isSome.mpr (List.cons_ne_nil y ys))
        rw [List.getLast?_cons_cons, hz]
    · rw [makereport_as_ite, if_neg hp, List.filter_cons_of_neg (by simpa using hp)]

/-- Claim C1: the spec asserts first-failure-wins, but the hook overwrites
the recorded name on every precondition call failure: after the session
[B (precondition, call fails), D (precondition, call fails)] the recorded
name is D, not the first failure B. -/
theorem runSession_overwrites_cex :
    (runSession evsBD).failed_precondition_name = some "D" ∧
    (runSession evsBD).failed_precondition_name ≠ some "B" := by
  refine ⟨rfl, ?_⟩
  decide

/-- Claim C1 (amended): for every sequence of executed cases, the recorded
failure name equals the name of the last precondition-tagged case in
execution order whose call phase recorded an exception (none when there is
no such case), and the failure flag is set exactly when one exists: later
precondition failures do overwrite the recorded name. -/
theorem runSession_last_failure_wins (evs : List ExecEvent) :
    (runSession evs).failed_precondition_name =
      ((evs.filter precond_call_failure).getLast?).map (fun e => e.item.name) ∧
    (runSession evs).precondition_failed =
      !(evs.filter precond_call_failure).isEmpty := by
  unfold runSession
  rw [runSession_go]
  cases hfl : evs.filter precond_call_failure with
  | nil => simp [pytest_sessionstart]
  | cons y ys =>
    obtain ⟨z, hz⟩ := Option.isSome_iff_exists.mp
      (List.getLast?_isSome.mpr (List.cons_ne_nil y ys))
    rw [hz]
    simp

/-- Claim C3: the collection hook emits a permutation of the collected
items in which the precondition group comes first, the untagged group
second and the performance group last (group ranks are monotone along the
output), each group keeping its original relative order (the output is
exactly the concatenation of the three order-preserving filters); on the
worked example [perf A, precond B, other C, precond D, perf E] it yields
[B, D, C, A, E]. -/
theorem modifyitems_ordering :
    (∀ items : List Item,
      (pytest_collection_modifyitems items).Perm items ∧
      pytest_collection_modifyitems items =
        items.filter isPre ++ items.filter isOther ++ items.filter isPerf ∧
      (pytest_collection_modifyitems items).Pairwise
        (fun a b => tag_rank a ≤ tag_rank b)) ∧
    pytest_collection_modifyitems itemsEx =
      [⟨"B", true, false⟩, ⟨"D", true, false⟩, ⟨"C", false, false⟩,
       ⟨"A", false, true⟩, ⟨"E", false, true⟩] := by
  refine ⟨fun items => ?_, by decide⟩
  rw [modifyitems_filters]
  exact ⟨perm_filters items, rfl, rank_sorted_filters items⟩

/-- Claim C4: the setup hook skips an item exactly when the session failure
flag is set and the item carries the performance mark; the skip cites the
recorded failed precondition name; an item without the performance mark is
never skipped by this rule. -/
theorem setup_skip_iff (st : SessionState) (item : Item) :
    ((pytest_runtest_setup st item).isSome = true ↔
      st.precondition_failed = true ∧ item.performance = true) ∧
    (st.precondition_failed = true → item.performance = true →
      pytest_runtest_setup st item = some st.failed_precondition_name) ∧
    (item.performance = false → pytest_runtest_setup st item = none) := by
  refine ⟨?_, fun h1 h2 => ?_, fun h2 => ?_⟩
  · by_cases h1 : st.precondition_failed <;> by_cases h2 : item.performance <;>
      simp [pytest_runtest_setup, h1, h2]
  · simp [pytest_runtest_setup, h1, h2]
  · simp [pytest_runtest_setup, h2]

/-- Witness for C4 at concrete inputs: with the flag set and the name of
the failed precondition recorded, a performance item is skipped citing that
name and a non-performance item is not skipped. -/
theorem setup_skip_iff_witness :
    pytest_runtest_setup ⟨true, some "test_usb_path_writable"⟩
        ⟨"test_usb_speed_parametrized", false, true⟩ =
      some (some "test_usb_path_writable") ∧
    pytest_runtest_setup ⟨true, some "test_usb_path_writable"⟩
        ⟨"test_invalid_size_raises_error", true, false⟩ = none :=
  ⟨(setup_skip_iff ⟨true, some "test_usb_path_writable"⟩
      ⟨"test_usb_speed_parametrized", false, true⟩).2.1 rfl rfl,
   (setup_skip_iff ⟨true, some "test_usb_path_writable"⟩
      ⟨"test_invalid_size_raises_error", true, false⟩).2.2 rfl⟩

/-- Claim C10: for a precondition-tagged case, any exception recorded in
the call phase — in particular the skip `test_usb_sufficient_space` raises
from inside its body when the free-space check is unsupported — sets the
session failure flag, after which every performance-tagged case is skipped
by the setup hook. -/
theorem makereport_flags_inbody_skip (st : SessionState) (it perfIt : Item)
    (pathExists : Bool) (disk_free : Option Rat) (e : ExcKind)
    (hpre : it.precondition = true)
    (hexc : test_usb_sufficient_space pathExists disk_free = some e)
    (hperf : perfIt.performance = true) :
    (pytest_runtest_makereport st it
        ⟨Phase.call, test_usb_sufficient_space pathExists disk_free⟩).precondition_failed
      = true ∧
    (pytest_runtest_setup
        (pytest_runtest_makereport st it
          ⟨Phase.call, test_usb_sufficient_space pathExists disk_free⟩)
        perfIt).isSome = true ∧
    test_usb_sufficient_space true none = some ExcKind.skipped := by
  have hm : pytest_runtest_makereport st it
      ⟨Phase.call, test_usb_sufficient_space pathExists disk_free⟩ = ⟨true, some it.name⟩ := by
    simp [pytest_runtest_makereport, hpre, hexc]
  refine ⟨by rw [hm], ?_, rfl⟩
  rw [hm]
  simp [pytest_runtest_setup, hperf]

/-- Witness for C10: the in-body skip of `test_usb_sufficient_space` (free
space unavailable) sets the flag and makes a later parametrized speed test
skip. -/
theorem makereport_flags_inbody_skip_witness :
    (pytest_runtest_makereport pytest_sessionstart
        ⟨"test_usb_sufficient_space", true, false⟩
        ⟨Phase.call, test_usb_sufficient_space true none⟩).precondition_failed = true ∧
    (pytest_runtest_setup
        (pytest_runtest_makereport pytest_sessionstart
          ⟨"test_usb_sufficient_space", true, false⟩
          ⟨Phase.call, test_usb_sufficient_space true none⟩)
        ⟨"test_usb_speed_parametrized", false, true⟩).isSome = true ∧
    test_usb_sufficient_space true none = some ExcKind.skipped :=
  makereport_flags_inbody_skip pytest_sessionstart
    ⟨"test_usb_sufficient_space", true, false⟩
    ⟨"test_usb_speed_parametrized", false, true⟩ true none ExcKind.skipped
    rfl rfl rfl

/-- Claim C8: when the failure flag is clear, at least one case passed and
none failed or were skipped, the terminal summary emits the all-passed
section and reports count, minimum, maximum and arithmetic mean of the
collected speed samples; for [60, 75, 90] it reports average 75, min 60,
max 90, count 3. -/
theorem terminal_summary_stats (st : SessionState) (passed : Nat)
    (hflag : st.precondition_failed = false) (hp : 0 < passed) :
    (∀ speeds : List Rat, speeds ≠ [] →
      pytest_terminal_summary st passed 0 0 speeds =
        (SummaryKind.allPassed,
          some ⟨pySum speeds / (speeds.length : Rat), pyMin speeds,
                pyMax speeds, speeds.length⟩)) ∧
    pytest_terminal_summary st passed 0 0 [60, 75, 90] =
      (SummaryKind.allPassed, some ⟨75, 60, 90, 3⟩) := by
  have hgen : ∀ speeds : List Rat, speeds ≠ [] →
      pytest_terminal_summary st passed 0 0 speeds =
        (SummaryKind.allPassed,
          some ⟨pySum speeds / (speeds.length : Rat), pyMin speeds,
                pyMax speeds, speeds.length⟩) := by
    intro speeds hne
    simp [pytest_terminal_summary, hflag, hp, hne]
  refine ⟨hgen, ?_⟩
  rw [hgen [60, 75, 90] (by simp)]
  norm_num [pySum, pyMin, pyMax]

/-- Witness for C8 at a concrete session: flag clear, one passed case, the
three sample speeds. -/
theorem terminal_summary_stats_witness :
    pytest_terminal_summary ⟨false, none⟩ 1 0 0 [60, 75, 90] =
      (SummaryKind.allPassed, some ⟨75, 60, 90, 3⟩) :=
  (terminal_summary_stats ⟨false, none⟩ 1 rfl (by norm_num)).2

theorem finallyCleanup_result (env : FsEnv) (ft : Bool) (r : WResult) :
    (finallyCleanup env ft r).result = r := by
  cases ft <;> cases h : env.removeOk <;> simp [finallyCleanup, h]

theorem finallyCleanup_removed (env : FsEnv) (ft : Bool) (r : WResult)
    (h : env.removeOk = true) : (finallyCleanup env ft r).fileStillThere = false := by
  cases ft <;> simp [finallyCleanup, h]

theorem write_test_file_valid (env : FsEnv) (p : PathInfo) (s : Int)
    (hs : ¬ s < MIN_FILE_SIZE_MB) (hp : validate_path p = none) :
    write_test_file env p s =
      finallyCleanup env (try_body env s).1 (try_body env s).2 := by
  unfold write_test_file
  rw [if_neg hs, hp]

theorem try_body_setRemoveOk (env : FsEnv) (b : Bool) (s : Int) :
    try_body (setRemoveOk env b) s = try_body env s := by
  cases env
  rfl

/-- Claim C5: for a valid directory and a valid size, on every exit path of
the measurement (success, short write, open or fsync failure, vanished
file, timing error) the test file is gone afterwards when the deletion
syscall works, and the primary result is the same whether or not the
cleanup deletion succeeds — a deletion failure never masks it. -/
theorem write_test_file_cleanup (env : FsEnv) (p : PathInfo) (s : Int)
    (hs : ¬ s < MIN_FILE_SIZE_MB) (hp : validate_path p = none) :
    (env.removeOk = true → (write_test_file env p s).fileStillThere = false) ∧
    (∀ b, (write_test_file (setRemoveOk env b) p s).result =
      (write_test_file env p s).result) := by
  constructor
  · intro hr
    rw [write_test_file_valid env p s hs hp]
    exact finallyCleanup_removed env _ _ hr
  · intro b
    rw [write_test_file_valid env p s hs hp,
      write_test_file_valid (setRemoveOk env b) p s hs hp,
      try_body_setRemoveOk, finallyCleanup_result, finallyCleanup_result]

/-- Witness for C5: a short-write run against a valid directory leaves no
file behind, and making the deletion fail does not change the reported
short-write error. -/
theorem write_test_file_cleanup_witness :
    (write_test_file envShort pGood 50).fileStillThere = false ∧
    (write_test_file (setRemoveOk envShort false) pGood 50).result =
      (write_test_file envShort pGood 50).result := by
  have h := write_test_file_cleanup envShort pGood 50 (by decide) rfl
  exact ⟨h.1 rfl, h.2 false⟩

/-- Claim C6: a returned speed always equals (on-disk bytes / 2^20) divided
by the elapsed seconds with elapsed strictly positive, and is itself
strictly positive whenever the on-disk size is nonzero; when the write
phase succeeds but the measured elapsed time is ≤ 0, the routine surfaces
the timing error, which is a ValueError and not one of its IOError/OSError
outcomes. -/
theorem write_test_file_speed_spec (env : FsEnv) (p : PathInfo) (s : Int) :
    (∀ spd : Rat, (write_test_file env p s).result = WResult.ok spd →
      spd = ((env.statSize : Rat) / (BYTES_PER_MB : Rat)) / env.elapsed ∧
      0 < env.elapsed ∧ (0 < env.statSize → 0 < spd)) ∧
    (¬ s < MIN_FILE_SIZE_MB → validate_path p = none → env.openOk = true →
      writes_ok env.writeReturns (chunk_plan s).1 (chunk_plan s).2 = true →
      env.fsyncOk = true → env.vanished = false → env.elapsed ≤ 0 →
      (write_test_file env p s).result = WResult.timingError ∧
      isIOFamily WResult.timingError = false) := by
  constructor
  · intro spd h
    by_cases hs : s < MIN_FILE_SIZE_MB
    · unfold write_test_file at h
      rw [if_pos hs] at h
      simp at h
    · cases hvp : validate_path p with
      | some e =>
        unfold write_test_file at h
        rw [if_neg hs, hvp] at h
        simp at h
      | none =>
        rw [write_test_file_valid env p s hs hvp, finallyCleanup_result] at h
        cases hopen : env.openOk with
        | false => simp [try_body, hopen] at h
        | true =>
          cases hwr : writes_ok env.writeReturns (chunk_plan s).1 (chunk_plan s).2 with
          | false => simp [try_body, hopen, hwr] at h
          | true =>
            cases hfs : env.fsyncOk with
            | false => simp [try_body, hopen, hwr, hfs] at h
            | true =>
              cases hv : env.vanished with
              | true => simp [try_body, hopen, hwr, hfs, hv] at h
              | false =>
                by_cases hel : env.elapsed ≤ 0
                · simp [try_body, hopen, hwr, hfs, hv, hel] at h
                · simp [try_body, hopen, hwr, hfs, hv, hel] at h
                  refine ⟨h.symm, not_le.mp hel, fun hstat => ?_⟩
                  rw [← h]
                  refine div_pos (div_pos ?_ ?_) (not_le.mp hel)
                  · exact_mod_cast hstat
                  · norm_num [BYTES_PER_MB, BYTES_PER_KB]
  · intro hs hvp hopen hwr hfs hv hel
    rw [write_test_file_valid env p s hs hvp, finallyCleanup_result]
    refine ⟨?_, rfl⟩
    simp [try_body, hopen, hwr, hfs, hv, hel]

/-- Witness for C6: a clean 50 MB run in 1 second returns exactly 50 MB/s
with the stated decomposition, and the same run with a zero elapsed time
surfaces the timing error. -/
theorem write_test_file_speed_spec_witness :
    ((50 : Rat) = ((envGood.statSize : Rat) / (BYTES_PER_MB : Rat)) / envGood.elapsed ∧
      0 < envGood.elapsed ∧ (0 < envGood.statSize → 0 < (50 : Rat))) ∧
    ((write_test_file envTiming pGood 50).result = WResult.timingError ∧
      isIOFamily WResult.timingError = false) := by
  constructor
  · exact (write_test_file_speed_spec envGood pGood 50).1 50
      (by norm_num [write_test_file, try_body, validate_path, finallyCleanup,
        envGood, pGood, chunk_plan, num_chunks_init, writes_ok,
        BYTES_PER_MB, BYTES_PER_KB, CHUNK_SIZE_BYTES, MIN_FILE_SIZE_MB])
  · exact (write_test_file_speed_spec envTiming pGood 50).2
      (by decide) rfl rfl (by decide) rfl rfl (by norm_num [envTiming])

/-- Claim C7: the routine validates in order before any I/O: any size below
1 MB (0 and negatives included) yields the invalid-size error with the
filesystem untouched regardless of the path; only for sizes ≥ 1 MB is the
path examined, yielding the distinct empty-path, nonexistent-path or
not-a-directory error, still with no I/O attempted. -/
theorem write_test_file_validation_order (env : FsEnv) (p : PathInfo) (s : Int) :
    (s < MIN_FILE_SIZE_MB →
      write_test_file env p s =
        ⟨WResult.invalidSize, env.preExisting, false, false⟩) ∧
    (¬ s < MIN_FILE_SIZE_MB → p.nonempty = false →
      write_test_file env p s =
        ⟨WResult.invalidPath PathErr.emptyPath, env.preExisting, false, false⟩) ∧
    (¬ s < MIN_FILE_SIZE_MB → p.nonempty = true → p.pathExists = false →
      write_test_file env p s =
        ⟨WResult.invalidPath PathErr.notExists, env.preExisting, false, false⟩) ∧
    (¬ s < MIN_FILE_SIZE_MB → p.nonempty = true → p.pathExists = true → p.isDir = false →
      write_test_file env p s =
        ⟨WResult.invalidPath PathErr.notDir, env.preExisting, false, false⟩) := by
  refine ⟨fun hs => ?_, fun hs h1 => ?_, fun hs h1 h2 => ?_, fun hs h1 h2 h3 => ?_⟩
  · unfold write_test_file
    rw [if_pos hs]
  · unfold write_test_file
    rw [if_neg hs, show validate_path p = some PathErr.emptyPath by
      simp [validate_path, h1]]
  · unfold write_test_file
    rw [if_neg hs, show validate_path p = some PathErr.notExists by
      simp [validate_path, h1, h2]]
  · unfold write_test_file
    rw [if_neg hs, show validate_path p = some PathErr.notDir by
      simp [validate_path, h1, h2, h3]]

/-- Witness for C7: size 0 is rejected as invalid even on a good path, and
for a valid size the three path defects are reported distinctly, all with
no I/O attempted. -/
theorem write_test_file_validation_order_witness :
    write_test_file envGood pGood 0 =
      ⟨WResult.invalidSize, false, false, false⟩ ∧
    write_test_file envGood ⟨false, false, false⟩ 50 =
      ⟨WResult.invalidPath PathErr.emptyPath, false, false, false⟩ ∧
    write_test_file envGood ⟨true, false, false⟩ 50 =
      ⟨WResult.invalidPath PathErr.notExists, false, false, false⟩ ∧
    write_test_file envGood ⟨true, true, false⟩ 50 =
      ⟨WResult.invalidPath PathErr.notDir, false, false, false⟩ :=
  ⟨(write_test_file_validation_order envGood pGood 0).1 (by decide),
   (write_test_file_validation_order envGood ⟨false, false, false⟩ 50).2.1 (by decide) rfl,
   (write_test_file_validation_order envGood ⟨true, false, false⟩ 50).2.2.1
     (by decide) rfl rfl,
   (write_test_file_validation_order envGood ⟨true, true, false⟩ 50).2.2.2
     (by decide) rfl rfl rfl⟩

/-- Claim C2: the spec asserts that a request of exactly 1 MB makes the
integer-division chunk count 0 and takes the single-chunk fallback, but at
1 MB the chunk count is 1048576 // 1048576 = 1, so the fallback guard
(`num_chunks == 0`) is not triggered. -/
theorem write_one_mb_fallback_cex :
    num_chunks_init 1 = 1 ∧ num_chunks_init 1 ≠ 0 ∧
    chunk_plan 1 = (CHUNK_SIZE_BYTES, 1) := by
  decide

/-- Claim C2 (amended): a request of exactly 1 MB succeeds (under a
well-behaved filesystem and clock), with integer-division chunk count 1,
via the ordinary path writing a single full-size 1 MiB chunk; the
zero-chunk fallback branch is not exercised at this boundary. -/
theorem write_one_mb_single_full_chunk (env : FsEnv) (p : PathInfo)
    (hp : validate_path p = none) (hopen : env.openOk = true)
    (hwr : writes_ok env.writeReturns CHUNK_SIZE_BYTES 1 = true)
    (hfs : env.fsyncOk = true) (hv : env.vanished = false)
    (hel : 0 < env.elapsed) :
    chunk_plan 1 = (CHUNK_SIZE_BYTES, 1) ∧
    num_chunks_init 1 = 1 ∧
    (write_test_file env p 1).result =
      WResult.ok (((env.statSize : Rat) / (BYTES_PER_MB : Rat)) / env.elapsed) := by
  refine ⟨by decide, by decide, ?_⟩
  rw [write_test_file_valid env p 1 (by decide) hp, finallyCleanup_result]
  have hplan : chunk_plan 1 = (CHUNK_SIZE_BYTES, 1) := by decide
  simp [try_body, hopen, hfs, hv, hplan, hwr, not_le.mpr hel]

/-- Witness for C2 (amended): a clean 1 MiB write in 1 second returns a
speed of 1 MB/s through the ordinary one-chunk path. -/
theorem write_one_mb_single_full_chunk_witness :
    (write_test_file env1MB pGood 1).result =
      WResult.ok (((env1MB.statSize : Rat) / (BYTES_PER_MB : Rat)) / env1MB.elapsed) :=
  (write_one_mb_single_full_chunk env1MB pGood rfl rfl (by decide) rfl rfl
    (by norm_num [env1MB])).2.2

/-- Claim C9: `get_usb_path` returns the `USB_TEST_PATH` value when the
variable is set and the fixed default path otherwise, and the directory a
measurement invocation targets (through the `usb_path` and
`writable_usb_path` fixtures) is exactly that value. -/
theorem get_usb_path_spec (usb_test_path : Option String) :
    (∀ v, usb_test_path = some v → get_usb_path usb_test_path = v) ∧
    (usb_test_path = none → get_usb_path usb_test_path = DEFAULT_USB_PATH) ∧
    measurement_target usb_test_path = get_usb_path usb_test_path := by
  refine ⟨fun v hv => ?_, fun hv => ?_, rfl⟩
  · rw [hv]
    rfl
  · rw [hv]
    rfl

/-- Witness for C9: a set variable overrides the default; an unset one
falls back to it. -/
theorem get_usb_path_spec_witness :
    get_usb_path (some "/mnt/usb") = "/mnt/usb" ∧
    get_usb_path none = DEFAULT_USB_PATH :=
  ⟨(get_usb_path_spec (some "/mnt/usb")).1 "/mnt/usb" rfl,
   (get_usb_path_spec none).2.1 rfl⟩

end UsbSpeedTest
